import Mathlib

/-!
Verification development for the ACTING tactical convoy coordination server.

The embedding models, from the repository source:
  - the data model of `shared/schema.ts` (vehicles, alerts, missions,
    connection logs, route changes);
  - the storage operations of `server/storage.ts` (each DB table is a
    `List` in insertion order; an UPDATE maps over the rows with a matching
    id; `.returning()` is the matching row of the updated list; ORDER BY is
    an explicit sort);
  - the Socket.IO handlers of `server/routes.ts` as pure functions
    `ServerState -> inputs -> ServerState x List Emission`, where an
    `Emission.broadcast` models `io.emit` (delivered to every live
    connection) and `Emission.direct` models `socket.emit` to one client;
  - the client-side fog-of-war filter of the TacticalMap component
    (`visibleVehicles`, `calculateDistance`).

JavaScript numbers: stored finite values are modelled as rationals.
A possibly-NaN / possibly-undefined / possibly-infinite numeric input is
modelled as `Option Rat`, `none` standing for any value that fails
`Number.isFinite` (the route-level `isNaN` check and the store-level
`Number.isFinite` check both send such inputs to the same rejection path).
The haversine distance is computed over the reals.

External collaborators (OpenAI, GraphHopper, randomUUID, Date.now) are
passed in as explicit parameters: an `Option String` enrichment result
(`none` = adapter failure), a route point list, fresh ids, and a `Nat`
timestamp.
-/

inductive VehicleType where
  | CONVOY_1 | CONVOY_2 | CONVOY_3 | CONVOY_4 | RECO | A400M | PC
deriving DecidableEq, Repr

inductive AlertType where
  | OBSTACLE | HOSTILE | IED_SUSPECT | BREAKDOWN | CIVILIAN_TRAFFIC | OTHER
deriving DecidableEq, Repr

inductive AlertStatus where
  | PENDING | VALIDATED | DISMISSED
deriving DecidableEq, Repr

inductive MissionStatus where
  | BRIEFING | IN_PROGRESS | COMPLETED | ABORTED
deriving DecidableEq, Repr

/-- Row of the `vehicles` table of `shared/schema.ts`. -/
structure Vehicle where
  id : String
  type : VehicleType
  name : String
  latitude : Rat
  longitude : Rat
  heading : Rat
  speed : Rat
  isStealthMode : Bool
  isConnected : Bool
  lastUpdate : Nat
deriving DecidableEq, Repr

/-- Row of the `alerts` table of `shared/schema.ts`. -/
structure Alert where
  id : String
  type : AlertType
  status : AlertStatus
  latitude : Rat
  longitude : Rat
  description : Option String
  sourceVehicleId : Option String
  imageUrl : Option String
  aiAnalysis : Option String
  createdAt : Nat
  validatedAt : Option Nat
  validatedBy : Option String
deriving DecidableEq, Repr

/-- Row of the `missions` table of `shared/schema.ts`. -/
structure Mission where
  id : String
  name : String
  status : MissionStatus
  startPointLat : Rat
  startPointLng : Rat
  extractionPointLat : Rat
  extractionPointLng : Rat
  briefingContent : Option String
  debriefingContent : Option String
  routeGeojson : Option String
  createdAt : Nat
  startedAt : Option Nat
  completedAt : Option Nat
deriving DecidableEq, Repr

/-- Row of the `connection_logs` table of `shared/schema.ts`. -/
structure ConnectionLog where
  id : String
  vehicleId : String
  eventType : String
  latitude : Rat
  longitude : Rat
  timestamp : Nat
deriving DecidableEq, Repr

/-- Row of the `route_changes` table of `shared/schema.ts`. -/
structure RouteChange where
  id : String
  missionId : String
  reason : String
  justification : Option String
  previousRoute : Option String
  newRoute : Option String
  triggeredByVehicleId : Option String
  createdAt : Nat
deriving DecidableEq, Repr

/-- `storage.getVehicle`: SELECT by primary key. -/
def getVehicle (vs : List Vehicle) (id : String) : Option Vehicle :=
  vs.find? (fun v => v.id == id)

/-- Field update applied by `storage.updateVehiclePosition` to the matching
row: latitude, longitude, safe heading, safe speed, lastUpdate. -/
def setPositionFields (la ln safeHeading safeSpeed : Rat) (now : Nat)
    (v : Vehicle) : Vehicle :=
  { v with latitude := la, longitude := ln, heading := safeHeading,
           speed := safeSpeed, lastUpdate := now }

/-- `storage.updateVehiclePosition` of `server/storage.ts`.
Rejects non-finite latitude or longitude (returns the store unchanged and
`none`); otherwise clamps the heading with `max 0 (min 360 heading)` where a
missing or non-finite heading becomes `0`, clamps the speed with
`max 0 speed` where a missing or non-finite speed becomes `0`, and commits
only latitude, longitude, heading, speed and lastUpdate on the matching
row. Returns the updated store and the updated row, if any. -/
def updateVehiclePosition (vs : List Vehicle) (id : String)
    (lat lng heading speed : Option Rat) (now : Nat) :
    List Vehicle × Option Vehicle :=
  match lat, lng with
  | some la, some ln =>
    let safeHeading : Rat := match heading with
      | some h => max 0 (min 360 h)
      | none => 0
    let safeSpeed : Rat := match speed with
      | some s => max 0 s
      | none => 0
    let vs2 := vs.map (fun v =>
      if v.id == id then setPositionFields la ln safeHeading safeSpeed now v
      else v)
    (vs2, vs2.find? (fun v => v.id == id))
  | _, _ => (vs, none)

/-- `storage.updateVehicleConnection` of `server/storage.ts`. -/
def updateVehicleConnection (vs : List Vehicle) (id : String)
    (isConnected : Bool) (now : Nat) : List Vehicle × Option Vehicle :=
  let vs2 := vs.map (fun v =>
    if v.id == id then { v with isConnected := isConnected, lastUpdate := now }
    else v)
  (vs2, vs2.find? (fun v => v.id == id))

/-- `storage.updateAlertStatus` of `server/storage.ts`: unconditionally sets
status, validatedBy, and validatedAt (a timestamp when the new status is not
PENDING, null otherwise) on the matching row.  There is no check of the
current status of the alert. -/
def updateAlertStatus (as : List Alert) (id : String) (status : AlertStatus)
    (validatedBy : Option String) (now : Nat) : List Alert × Option Alert :=
  let as2 := as.map (fun a =>
    if a.id == id then
      { a with status := status, validatedBy := validatedBy,
               validatedAt := if status ≠ AlertStatus.PENDING then some now else none }
    else a)
  (as2, as2.find? (fun a => a.id == id))

/-- `storage.createAlert`: INSERT with a fresh id. -/
def createAlert (as : List Alert) (a : Alert) : List Alert × Alert :=
  (as ++ [a], a)

/-- `storage.createConnectionLog`: INSERT with a fresh id. -/
def createConnectionLog (logs : List ConnectionLog) (log : ConnectionLog) :
    List ConnectionLog × ConnectionLog :=
  (logs ++ [log], log)

/-- `storage.createRouteChange`: INSERT with a fresh id. -/
def createRouteChange (rcs : List RouteChange) (rc : RouteChange) :
    List RouteChange × RouteChange :=
  (rcs ++ [rc], rc)

/-- One step of the createdAt-descending LIMIT 1 selection. -/
def pickLatest (acc : Option Mission) (m : Mission) : Option Mission :=
  match acc with
  | none => some m
  | some b => if b.createdAt < m.createdAt then some m else some b

/-- `storage.getCurrentMission`: SELECT ordered by createdAt descending,
LIMIT 1, i.e. a mission with the greatest creation timestamp. -/
def getCurrentMission (ms : List Mission) : Option Mission :=
  ms.foldl pickLatest none

/-- `storage.updateMission`: UPDATE the matching row with the given field
patch, returning the updated row if any. -/
def updateMission (ms : List Mission) (id : String)
    (patch : Mission → Mission) : List Mission × Option Mission :=
  let ms2 := ms.map (fun m => if m.id == id then patch m else m)
  (ms2, ms2.find? (fun m => m.id == id))

/-- Insertion of one record into a list sorted by createdAt descending. -/
def insertDesc (rc : RouteChange) : List RouteChange → List RouteChange
  | [] => [rc]
  | x :: xs =>
    if x.createdAt < rc.createdAt then rc :: x :: xs
    else x :: insertDesc rc xs

/-- Sort by createdAt descending (models ORDER BY created_at DESC). -/
def sortByCreatedAtDesc : List RouteChange → List RouteChange
  | [] => []
  | x :: xs => insertDesc x (sortByCreatedAtDesc xs)

/-- `storage.getRouteChanges` of `server/storage.ts`: optionally filter by
mission id, then ORDER BY created_at DESC — most recent record first. -/
def getRouteChanges (rcs : List RouteChange) (missionId : Option String) :
    List RouteChange :=
  match missionId with
  | some mid => sortByCreatedAtDesc (rcs.filter (fun rc => rc.missionId == mid))
  | none => sortByCreatedAtDesc rcs

/-- Degrees to radians, `toRad` of the TacticalMap component. -/
noncomputable def toRad (deg : ℝ) : ℝ := deg * (Real.pi / 180)

/-- Two-argument arctangent with the semantics of JavaScript `Math.atan2`
on finite arguments. -/
noncomputable def atan2 (y x : ℝ) : ℝ :=
  if 0 < x then Real.arctan (y / x)
  else if x < 0 then
    if 0 ≤ y then Real.arctan (y / x) + Real.pi
    else Real.arctan (y / x) - Real.pi
  else
    if 0 < y then Real.pi / 2
    else if y < 0 then -(Real.pi / 2)
    else 0

/-- `calculateDistance` of the TacticalMap component: haversine great-circle
distance in kilometres, Earth radius 6371 km. -/
noncomputable def calculateDistance (lat1 lon1 lat2 lon2 : ℝ) : ℝ :=
  let R : ℝ := 6371
  let dLat := toRad (lat2 - lat1)
  let dLon := toRad (lon2 - lon1)
  let a := Real.sin (dLat / 2) * Real.sin (dLat / 2) +
    Real.cos (toRad lat1) * Real.cos (toRad lat2) *
      Real.sin (dLon / 2) * Real.sin (dLon / 2)
  let c := 2 * atan2 (Real.sqrt a) (Real.sqrt (1 - a))
  R * c

/-- `canSeeFullMap` of the RoleContext: true exactly for the command post
and the aircraft.  The role is `none` before a terminal has picked one. -/
def canSeeFullMap (currentRole : Option VehicleType) : Bool :=
  currentRole == some VehicleType.PC || currentRole == some VehicleType.A400M

/-- The observer's own vehicle, found by role: `vehicles.find(v => v.type
=== currentRole)` of the TacticalMap component. -/
def findCurrentVehicle (currentRole : Option VehicleType)
    (vehicles : List Vehicle) : Option Vehicle :=
  vehicles.find? (fun v => some v.type == currentRole)

open Classical in
/-- `visibleVehicles` of the TacticalMap component: in replay mode, or for
an omniscient role, or when the observer's own vehicle is not found, every
vehicle is visible; otherwise exactly the vehicles within 0.3 km (300 m)
haversine distance of the observer's own vehicle. -/
noncomputable def visibleVehicles (currentRole : Option VehicleType)
    (isReplayMode : Bool) (vehicles : List Vehicle) : List Vehicle :=
  vehicles.filter (fun v =>
    if isReplayMode then true
    else if canSeeFullMap currentRole then true
    else
      match findCurrentVehicle currentRole vehicles with
      | none => true
      | some cv => decide (calculateDistance (cv.latitude : ℝ) (cv.longitude : ℝ)
          (v.latitude : ℝ) (v.longitude : ℝ) ≤ 0.3))

/-- Payload of an outbound Socket.IO event. -/
inductive Payload where
  | vehicle (v : Vehicle)
  | vehicleList (vs : List Vehicle)
  | alert (a : Alert)
  | alertList (as : List Alert)
  | route (points : List (Rat × Rat))
  | empty
deriving DecidableEq, Repr

/-- An outbound event: `io.emit` reaches every live connection with one and
the same payload; `socket.emit` reaches one client. -/
inductive Emission where
  | broadcast (event : String) (payload : Payload)
  | direct (target : String) (event : String) (payload : Payload)
deriving DecidableEq, Repr

/-- Server-side session state: the stored tables plus the
`connectedClients` map of `server/routes.ts` (role ids with a live
socket).  Messages, waypoints, zones and position history are not touched
by any modelled operation and are left out. -/
structure ServerState where
  vehicles : List Vehicle
  alerts : List Alert
  missions : List Mission
  connectionLogs : List ConnectionLog
  routeChanges : List RouteChange
  connectedClients : List String
deriving DecidableEq, Repr

/-- `connectedClients.set(vehicleId, socket)`: last-writer-wins slot. -/
def setClient (clients : List String) (vehicleId : String) : List String :=
  vehicleId :: clients.filter (fun c => c ≠ vehicleId)

/-- The payloads a given live connection receives for a given event name
from a list of emissions.  A broadcast reaches a client exactly when that
client holds a live connection; a direct emission reaches its target. -/
def deliveredPayloads (clients : List String) (clientId : String)
    (event : String) (es : List Emission) : List Payload :=
  es.filterMap (fun e =>
    match e with
    | Emission.broadcast ev p =>
      if ev == event ∧ clients.contains clientId then some p else none
    | Emission.direct target ev p =>
      if ev == event ∧ target == clientId then some p else none)

/-- The `position:update` handler of `server/routes.ts`: reject a
non-finite latitude or longitude with no mutation and no emission;
otherwise run `storage.updateVehiclePosition` and, when a row was updated,
`io.emit("vehicle:updated", vehicle)` — the full updated row, broadcast
identically to every live connection with no per-role filtering. -/
def handlePositionUpdate (st : ServerState) (vehicleId : String)
    (lat lng heading speed : Option Rat) (now : Nat) :
    ServerState × List Emission :=
  match lat, lng with
  | some _, some _ =>
    let r := updateVehiclePosition st.vehicles vehicleId lat lng heading speed now
    ({ st with vehicles := r.1 },
      match r.2 with
      | some v => [Emission.broadcast "vehicle:updated" (Payload.vehicle v)]
      | none => [])
  | _, _ => (st, [])

/-- JavaScript `s.startsWith(p)`, modelled over the character lists of the
two strings. -/
def strStartsWith (s p : String) : Bool :=
  p.data.isPrefixOf s.data

/-- Inbound payload of `alert:create`. -/
structure AlertCreateData where
  type : AlertType
  latitude : Rat
  longitude : Rat
  description : Option String
  imageUrl : Option String
  sourceVehicleId : Option String
deriving DecidableEq, Repr

/-- The `alert:create` handler of `server/routes.ts`.  When the payload
carries a data-URL image, the enrichment adapter is asked for an analysis;
`aiResult = none` models an adapter failure (the `catch` branch), in which
case `aiAnalysis` stays unset.  The alert is then created with status
PENDING either way and `io.emit("alert:created", alert)` is broadcast. -/
def handleAlertCreate (st : ServerState) (data : AlertCreateData)
    (aiResult : Option String) (newId : String) (now : Nat) :
    ServerState × List Emission :=
  let hasImage : Bool := match data.imageUrl with
    | some url => strStartsWith url "data:image"
    | none => false
  let aiAnalysis : Option String := if hasImage then aiResult else none
  let alert : Alert :=
    { id := newId, type := data.type, status := AlertStatus.PENDING,
      latitude := data.latitude, longitude := data.longitude,
      description := data.description,
      sourceVehicleId := data.sourceVehicleId, imageUrl := data.imageUrl,
      aiAnalysis := aiAnalysis, createdAt := now,
      validatedAt := none, validatedBy := none }
  ({ st with alerts := (createAlert st.alerts alert).1 },
    [Emission.broadcast "alert:created" (Payload.alert alert)])

/-- The `alert:validate` handler of `server/routes.ts`: unconditional
`storage.updateAlertStatus(id, VALIDATED, by)` followed by a broadcast of
the updated alert when the row exists.  No check of the current status. -/
def handleAlertValidate (st : ServerState) (alertId validatedBy : String)
    (now : Nat) : ServerState × List Emission :=
  let r := updateAlertStatus st.alerts alertId AlertStatus.VALIDATED
    (some validatedBy) now
  ({ st with alerts := r.1 },
    match r.2 with
    | some a => [Emission.broadcast "alert:updated" (Payload.alert a)]
    | none => [])

/-- The `alert:dismiss` handler of `server/routes.ts`: unconditional
`storage.updateAlertStatus(id, DISMISSED, by)` followed by a broadcast of
the updated alert when the row exists.  No check of the current status. -/
def handleAlertDismiss (st : ServerState) (alertId validatedBy : String)
    (now : Nat) : ServerState × List Emission :=
  let r := updateAlertStatus st.alerts alertId AlertStatus.DISMISSED
    (some validatedBy) now
  ({ st with alerts := r.1 },
    match r.2 with
    | some a => [Emission.broadcast "alert:updated" (Payload.alert a)]
    | none => [])

/-- The `join` handler of `server/routes.ts`: register the connection slot
(last writer wins); for every role except the command post, set the
vehicle's connected flag and append a CONNECTED audit record at the
vehicle's stored position — unconditionally, with no check of the previous
connected flag; then sync the caller and broadcast the vehicle list.
(The snapshot emissions to the joining socket also include alerts and
messages; messages are not modelled.) -/
def handleJoin (st : ServerState) (vehicleId : String) (logId : String)
    (now : Nat) : ServerState × List Emission :=
  let clients := setClient st.connectedClients vehicleId
  if vehicleId == "PC" then
    ({ st with connectedClients := clients },
      [Emission.direct vehicleId "vehicles:sync" (Payload.vehicleList st.vehicles),
       Emission.direct vehicleId "alerts:sync" (Payload.alertList st.alerts),
       Emission.broadcast "vehicles:sync" (Payload.vehicleList st.vehicles)])
  else
    let r := updateVehicleConnection st.vehicles vehicleId true now
    let logs := match r.2 with
      | some v =>
        (createConnectionLog st.connectionLogs
          { id := logId, vehicleId := vehicleId, eventType := "CONNECTED",
            latitude := v.latitude, longitude := v.longitude,
            timestamp := now }).1
      | none => st.connectionLogs
    ({ st with vehicles := r.1, connectionLogs := logs,
               connectedClients := clients },
      [Emission.direct vehicleId "vehicles:sync" (Payload.vehicleList r.1),
       Emission.direct vehicleId "alerts:sync" (Payload.alertList st.alerts),
       Emission.broadcast "vehicles:sync" (Payload.vehicleList r.1)])

/-- The `disconnect` handler of `server/routes.ts` for a socket that had
joined as `vehicleId`: drop the connection slot; for every role except the
command post, clear the vehicle's connected flag and append a DISCONNECTED
audit record — unconditionally, with no check of the previous flag; then
broadcast the vehicle list. -/
def handleDisconnect (st : ServerState) (vehicleId : String) (logId : String)
    (now : Nat) : ServerState × List Emission :=
  let clients := st.connectedClients.filter (fun c => c ≠ vehicleId)
  if vehicleId == "PC" then
    ({ st with connectedClients := clients },
      [Emission.broadcast "vehicles:sync" (Payload.vehicleList st.vehicles)])
  else
    let r := updateVehicleConnection st.vehicles vehicleId false now
    let logs := match r.2 with
      | some v =>
        (createConnectionLog st.connectionLogs
          { id := logId, vehicleId := vehicleId, eventType := "DISCONNECTED",
            latitude := v.latitude, longitude := v.longitude,
            timestamp := now }).1
      | none => st.connectionLogs
    ({ st with vehicles := r.1, connectionLogs := logs,
               connectedClients := clients },
      [Emission.broadcast "vehicles:sync" (Payload.vehicleList r.1)])

/-- Inbound payload of `route:recalculate` (all fields optional). -/
structure RecalcData where
  reason : Option String
  vehicleId : Option String
  latitude : Option Rat
  longitude : Option Rat
deriving DecidableEq, Repr

/-- The RouteChange record built inside the `route:recalculate` handler of
`server/routes.ts`: the reason falls back to a canned string, the
triggering vehicle is the payload's vehicleId, falling back to the
socket's joined vehicleId, falling back to null. -/
def mkRouteChange (mission : Mission) (socketVehicleId : Option String)
    (data : Option RecalcData) (route : List (Rat × Rat)) (rcId : String)
    (now : Nat) : RouteChange :=
  let reason := match data with
    | some d => d.reason.getD "Recalcul automatique"
    | none => "Recalcul automatique"
  let triggeredBy : Option String := match data with
    | some d => match d.vehicleId with
      | some v => some v
      | none => socketVehicleId
    | none => socketVehicleId
  { id := rcId, missionId := mission.id, reason := reason,
    justification := none, previousRoute := none,
    newRoute := some (toString route), triggeredByVehicleId := triggeredBy,
    createdAt := now }

/-- The `route:recalculate` handler of `server/routes.ts`.  With no current
mission the handler does nothing at all: no audit record, no emission, no
error back to the caller.  Otherwise the route geometry adapter result
(`route`) is recorded as a RouteChange audit record and `route:updated` and
`route-change:created` are broadcast. -/
def handleRouteRecalculate (st : ServerState) (socketVehicleId : Option String)
    (data : Option RecalcData) (route : List (Rat × Rat)) (rcId : String)
    (now : Nat) : ServerState × List Emission :=
  match getCurrentMission st.missions with
  | none => (st, [])
  | some mission =>
    let rc := mkRouteChange mission socketVehicleId data route rcId now
    ({ st with routeChanges := (createRouteChange st.routeChanges rc).1 },
      [Emission.broadcast "route:updated" (Payload.route route),
       Emission.broadcast "route-change:created" Payload.empty])

/-- Result of a REST endpoint: the JSON body or an error status. -/
inductive ApiResult (α : Type) where
  | ok (value : α)
  | notFound (msg : String)
deriving DecidableEq, Repr

/-- The `POST /api/mission/start` handler of `server/routes.ts`: with no
current mission respond 404; otherwise set status IN_PROGRESS and startedAt
— with no check of the current status. -/
def startMissionApi (ms : List Mission) (now : Nat) :
    List Mission × ApiResult Mission :=
  match getCurrentMission ms with
  | none => (ms, ApiResult.notFound "No mission found")
  | some mission =>
    let r := updateMission ms mission.id (fun m =>
      { m with status := MissionStatus.IN_PROGRESS, startedAt := some now })
    (r.1, match r.2 with
      | some m => ApiResult.ok m
      | none => ApiResult.notFound "No mission found")

/-- The `POST /api/mission/complete` handler of `server/routes.ts`: with no
current mission respond 404; otherwise ask the narrative adapter for a
debriefing (`aiDebrief = none` models the `catch` branch, degrading to a
canned placeholder), then set status COMPLETED, completedAt and the
debriefing content — with no check of the current status. -/
def completeMissionApi (ms : List Mission) (aiDebrief : Option String)
    (now : Nat) : List Mission × ApiResult Mission :=
  match getCurrentMission ms with
  | none => (ms, ApiResult.notFound "No mission found")
  | some mission =>
    let debriefingContent :=
      aiDebrief.getD "Débriefing en cours de génération..."
    let r := updateMission ms mission.id (fun m =>
      { m with status := MissionStatus.COMPLETED, completedAt := some now,
               debriefingContent := some debriefingContent })
    (r.1, match r.2 with
      | some m => ApiResult.ok m
      | none => ApiResult.notFound "No mission found")

/-- The `GET /api/route-changes` handler of `server/routes.ts`: the route
change records of the current mission, ordered by the store query. -/
def routeChangesApi (st : ServerState) : List RouteChange :=
  getRouteChanges st.routeChanges ((getCurrentMission st.missions).map (fun m => m.id))

/-- Convoy vehicle sample at the origin (used by concrete instances). -/
def vConvoy1 : Vehicle :=
  { id := "CONVOY_1", type := VehicleType.CONVOY_1, name := "Vehicule 1",
    latitude := 0, longitude := 0, heading := 0, speed := 0,
    isStealthMode := false, isConnected := false, lastUpdate := 0 }

/-- Reconnaissance vehicle sample at the origin. -/
def vReco : Vehicle :=
  { id := "RECO", type := VehicleType.RECO, name := "VBL Reconnaissance",
    latitude := 0, longitude := 0, heading := 270, speed := 3,
    isStealthMode := false, isConnected := false, lastUpdate := 0 }

/-- Empty session state. -/
def stEmpty : ServerState :=
  { vehicles := [], alerts := [], missions := [], connectionLogs := [],
    routeChanges := [], connectedClients := [] }

/-- Session state for the broadcast counterexample: both vehicles stored,
only the CONVOY_1 terminal holds a live connection. -/
def stC1 : ServerState :=
  { stEmpty with vehicles := [vConvoy1, vReco],
                 connectedClients := ["CONVOY_1"] }

/-- The reconnaissance vehicle after the far position update. -/
def vRecoMoved : Vehicle :=
  { vReco with latitude := 0, longitude := 180, heading := 0, speed := 0,
               lastUpdate := 7 }

/-- The reconnaissance vehicle after a small successful position update. -/
def vRecoNear : Vehicle :=
  { vReco with latitude := 1, longitude := 2, heading := 0, speed := 0,
               lastUpdate := 8 }

/-- A mission sample still in BRIEFING. -/
def missionB : Mission :=
  { id := "M1", name := "Extraction Convoi Alpha",
    status := MissionStatus.BRIEFING,
    startPointLat := 17, startPointLng := -4,
    extractionPointLat := 17, extractionPointLng := -3,
    briefingContent := none, debriefingContent := none, routeGeojson := none,
    createdAt := 0, startedAt := none, completedAt := none }

/-- The reconnaissance vehicle after the update with heading 370 and speed
minus 5: the stored heading is the clamped 360, not a wrapped 10. -/
def vRecoClamped : Vehicle :=
  { vReco with latitude := 17, longitude := -4, heading := 360, speed := 0,
               lastUpdate := 3 }

/-- The BRIEFING mission after a direct `complete` call: COMPLETED, with
the canned debriefing placeholder (adapter failure path). -/
def missionBCompleted : Mission :=
  { missionB with status := MissionStatus.COMPLETED, completedAt := some 9,
                  debriefingContent := some "Débriefing en cours de génération..." }

/-- An alert already resolved (VALIDATED by the command post at time 1). -/
def alertValidated : Alert :=
  { id := "A1", type := AlertType.HOSTILE, status := AlertStatus.VALIDATED,
    latitude := 17, longitude := -4, description := none,
    sourceVehicleId := some "RECO", imageUrl := none, aiAnalysis := none,
    createdAt := 0, validatedAt := some 1, validatedBy := some "PC" }

/-- Session state holding only the already-validated alert. -/
def stC5 : ServerState := { stEmpty with alerts := [alertValidated] }

/-- The already-validated alert after a later dismiss call: every
validation field is overwritten. -/
def alertRedismissed : Alert :=
  { alertValidated with
      status := AlertStatus.DISMISSED,
      validatedBy := some "OTHER",
      validatedAt := some 2 }

/-- Session state holding only the (disconnected) reconnaissance
vehicle. -/
def stC6 : ServerState := { stEmpty with vehicles := [vReco] }

/-- Session state holding only the BRIEFING mission. -/
def stC7 : ServerState := { stEmpty with missions := [missionB] }

/-- State after a first route recalculation at time 1. -/
def stC7a : ServerState :=
  (handleRouteRecalculate stC7 (some "PC") none [] "R1" 1).1

/-- State after a second route recalculation at time 2. -/
def stC7b : ServerState :=
  (handleRouteRecalculate stC7a (some "PC") none [] "R2" 2).1

/-- An `alert:create` payload carrying a data-URL image. -/
def alertWithImageData : AlertCreateData :=
  { type := AlertType.OBSTACLE, latitude := 17, longitude := -4,
    description := some "objet suspect", imageUrl := some "data:image-jpeg",
    sourceVehicleId := some "RECO" }

/-- If an element is found, the element is in the list and satisfies the
predicate. (Bundled form of the two library facts.) -/
theorem find?_spec {α : Type} {p : α → Bool} {l : List α} {a : α}
    (h : l.find? p = some a) : a ∈ l ∧ p a = true :=
  ⟨List.mem_of_find?_eq_some h, List.find?_some h⟩

/-- A row-update map touches only matching rows, so a search for a matching
row in the updated table finds exactly the updated image of the original
find, provided the update preserves the match. -/
theorem find?_map_update {α : Type} (p : α → Bool) (f : α → α)
    (hpf : ∀ a, p a = true → p (f a) = true) :
    ∀ l : List α,
      (l.map (fun a => if p a then f a else a)).find? p = (l.find? p).map f
  | [] => rfl
  | a :: l => by
    by_cases h : p a = true
    · simp [List.find?, h, hpf a h]
    · have h2 : p a = false := by
        cases h3 : p a
        · rfl
        · exact absurd h3 h
      simp [List.find?, h2, find?_map_update p f hpf l]

/-- The latest-mission selection only ever returns the accumulator or a
list element. -/
theorem foldl_pickLatest_mem :
    ∀ (ms : List Mission) (acc : Option Mission) (m : Mission),
      ms.foldl pickLatest acc = some m → m ∈ ms ∨ acc = some m
  | [], acc, m => fun h => Or.inr h
  | x :: ms, acc, m => by
    intro h
    have h2 := foldl_pickLatest_mem ms (pickLatest acc x) m h
    rcases h2 with h2 | h2
    · exact Or.inl (List.mem_cons_of_mem x h2)
    · rcases acc with _ | b
      · cases h2
        exact Or.inl (List.mem_cons_self x ms)
      · by_cases hlt : b.createdAt < x.createdAt
        · have hpick : pickLatest (some b) x = some x := by
            simp [pickLatest, hlt]
          rw [hpick] at h2
          cases h2
          exact Or.inl (List.mem_cons_self x ms)
        · have hpick : pickLatest (some b) x = some b := by
            simp [pickLatest, hlt]
          rw [hpick] at h2
          exact Or.inr h2

/-- The current mission, when one exists, is a stored mission. -/
theorem getCurrentMission_mem {ms : List Mission} {m : Mission}
    (h : getCurrentMission ms = some m) : m ∈ ms := by
  rcases foldl_pickLatest_mem ms none m h with h2 | h2
  · exact h2
  · cases h2

/-- A role that is neither the command post nor the aircraft cannot see the
full map. -/
theorem canSeeFullMap_eq_false {r : Option VehicleType}
    (hpc : r ≠ some VehicleType.PC) (hav : r ≠ some VehicleType.A400M) :
    canSeeFullMap r = false := by
  rcases r with _ | t
  · rfl
  · cases t
    · rfl
    · rfl
    · rfl
    · rfl
    · rfl
    · exact absurd rfl hav
    · exact absurd rfl hpc

/-- The haversine distance of a point to itself is zero. -/
theorem calculateDistance_same (lat lon : ℝ) :
    calculateDistance lat lon lat lon = 0 := by
  simp [calculateDistance, toRad, atan2, Real.arctan_zero]

/-- The haversine distance from the origin to the antipodal point on the
equator is half the Earth circumference. -/
theorem calculateDistance_zero_antipodal :
    calculateDistance 0 0 0 180 = 6371 * Real.pi := by
  have h180 : ((180 : ℝ) - 0) * (Real.pi / 180) = Real.pi := by
    field_simp
  simp only [calculateDistance, toRad, h180]
  norm_num [Real.sin_pi_div_two, Real.sqrt_one, atan2]
  ring

/-- Half the Earth circumference is more than 300 m. -/
theorem antipodal_gt_300m : (0.3 : ℝ) < 6371 * Real.pi := by
  nlinarith [Real.pi_gt_three]

/-- C2: for every observer role other than the command post and the
aircraft whose own vehicle is found, the visible-vehicle filter keeps
exactly the vehicles whose haversine distance (Earth radius 6371 km) from
the observer's vehicle is at most 0.3 km = 300 m; the command post and the
aircraft always see the full set; and when the observer's own vehicle is
not found the full set is visible (fail-open).  Stated out of replay
mode. -/
theorem visibleVehicles_fog_of_war :
    (∀ (r : Option VehicleType) (vs : List Vehicle),
      (r = some VehicleType.PC ∨ r = some VehicleType.A400M) →
      visibleVehicles r false vs = vs) ∧
    (∀ (r : Option VehicleType) (vs : List Vehicle),
      r ≠ some VehicleType.PC → r ≠ some VehicleType.A400M →
      findCurrentVehicle r vs = none →
      visibleVehicles r false vs = vs) ∧
    (∀ (r : Option VehicleType) (vs : List Vehicle) (cv v : Vehicle),
      r ≠ some VehicleType.PC → r ≠ some VehicleType.A400M →
      findCurrentVehicle r vs = some cv →
      (v ∈ visibleVehicles r false vs ↔ v ∈ vs ∧
        calculateDistance (cv.latitude : ℝ) (cv.longitude : ℝ)
          (v.latitude : ℝ) (v.longitude : ℝ) ≤ 0.3)) := by
  refine ⟨?_, ?_, ?_⟩
  · rintro r vs (rfl | rfl) <;> simp [visibleVehicles, canSeeFullMap]
  · intro r vs hpc hav hnone
    simp [visibleVehicles, canSeeFullMap_eq_false hpc hav, hnone]
  · intro r vs cv v hpc hav hsome
    simp [visibleVehicles, canSeeFullMap_eq_false hpc hav, hsome,
      List.mem_filter]

/-- Witness: the CONVOY_1 unit sees itself (distance zero), and the command
post sees the full set. -/
theorem visibleVehicles_fog_of_war_check :
    visibleVehicles (some VehicleType.PC) false [vConvoy1, vReco] =
      [vConvoy1, vReco] ∧
    vConvoy1 ∈ visibleVehicles (some VehicleType.CONVOY_1) false [vConvoy1] := by
  constructor
  · exact visibleVehicles_fog_of_war.1 (some VehicleType.PC) [vConvoy1, vReco]
      (Or.inl rfl)
  · refine (visibleVehicles_fog_of_war.2.2 (some VehicleType.CONVOY_1)
      [vConvoy1] vConvoy1 vConvoy1 (by decide) (by decide) (by decide)).mpr ?_
    refine ⟨List.mem_singleton.mpr rfl, ?_⟩
    rw [calculateDistance_same]
    norm_num

/-- C1 counterexample: with the CONVOY_1 terminal connected and its own
vehicle at the origin, a successful position update moving RECO to the
antipodal equator point is delivered to the CONVOY_1 connection as the
full vehicle entity, even though that entity is 6371 pi km > 300 m away
from CONVOY_1's own vehicle — the payload is not pre-filtered by the
Visibility Filter. -/
theorem broadcast_reaches_noncommand_beyond_300m :
    deliveredPayloads stC1.connectedClients "CONVOY_1" "vehicle:updated"
        (handlePositionUpdate stC1 "RECO" (some 0) (some 180) none none 7).2 =
      [Payload.vehicle vRecoMoved] ∧
    canSeeFullMap (some VehicleType.CONVOY_1) = false ∧
    findCurrentVehicle (some VehicleType.CONVOY_1) stC1.vehicles = some vConvoy1 ∧
    (0.3 : ℝ) < calculateDistance (vConvoy1.latitude : ℝ)
      (vConvoy1.longitude : ℝ) (vRecoMoved.latitude : ℝ)
      (vRecoMoved.longitude : ℝ) := by
  refine ⟨by decide, rfl, by decide, ?_⟩
  have hla : (vConvoy1.latitude : ℝ) = 0 := by norm_num [vConvoy1]
  have hlo : (vConvoy1.longitude : ℝ) = 0 := by norm_num [vConvoy1]
  have h2a : (vRecoMoved.latitude : ℝ) = 0 := by norm_num [vRecoMoved]
  have h2o : (vRecoMoved.longitude : ℝ) = 180 := by norm_num [vRecoMoved]
  rw [hla, hlo, h2a, h2o, calculateDistance_zero_antipodal]
  exact antipodal_gt_300m

/-- C1 amended: every successful vehicle or alert mutation is re-broadcast
as the full resulting entity, and every live connection receives one and
the same unfiltered payload — per-role visibility filtering happens only
client-side at render time, not on the emitted payload. -/
theorem mutation_broadcast_identical_to_every_connection :
    (∀ (st : ServerState) (vid : String) (la ln : Rat)
        (hdg spd : Option Rat) (now : Nat) (v : Vehicle),
      (updateVehiclePosition st.vehicles vid (some la) (some ln) hdg spd now).2
        = some v →
      (handlePositionUpdate st vid (some la) (some ln) hdg spd now).2 =
        [Emission.broadcast "vehicle:updated" (Payload.vehicle v)] ∧
      ∀ c ∈ st.connectedClients,
        deliveredPayloads st.connectedClients c "vehicle:updated"
          (handlePositionUpdate st vid (some la) (some ln) hdg spd now).2 =
        [Payload.vehicle v]) ∧
    (∀ (st : ServerState) (data : AlertCreateData) (aiResult : Option String)
        (newId : String) (now : Nat) (a : Alert),
      (handleAlertCreate st data aiResult newId now).2 =
        [Emission.broadcast "alert:created" (Payload.alert a)] →
      ∀ c ∈ st.connectedClients,
        deliveredPayloads st.connectedClients c "alert:created"
          (handleAlertCreate st data aiResult newId now).2 =
        [Payload.alert a]) := by
  constructor
  · intro st vid la ln hdg spd now v hupd
    have hem : (handlePositionUpdate st vid (some la) (some ln) hdg spd now).2 =
        [Emission.broadcast "vehicle:updated" (Payload.vehicle v)] := by
      simp [handlePositionUpdate, hupd]
    refine ⟨hem, ?_⟩
    intro c hc
    rw [hem]
    simp [deliveredPayloads, hc]
  · intro st data aiResult newId now a hem
    intro c hc
    rw [hem]
    simp [deliveredPayloads, hc]

/-- Witness: a successful RECO position update is delivered in full to the
connected CONVOY_1 terminal. -/
theorem mutation_broadcast_identical_check :
    deliveredPayloads stC1.connectedClients "CONVOY_1" "vehicle:updated"
        (handlePositionUpdate stC1 "RECO" (some 1) (some 2) none none 8).2 =
      [Payload.vehicle vRecoNear] :=
  (mutation_broadcast_identical_to_every_connection.1 stC1 "RECO" 1 2 none none 8
    vRecoNear (by decide)).2 "CONVOY_1" (by decide)

/-- C3 counterexample: a position update with heading 370 stores heading
360 (the clamp of the code), not a wrapped 10 as the claim states; the
speed clamp of minus 5 to 0 does hold. -/
theorem heading_370_clamped_not_wrapped :
    (updateVehiclePosition [vReco] "RECO" (some 17) (some (-4)) (some 370)
        (some (-5)) 3).2 = some vRecoClamped ∧
    vRecoClamped.heading = 360 ∧ vRecoClamped.heading ≠ 10 ∧
    vRecoClamped.speed = 0 := by decide

/-- C3 amended: for every position update with finite latitude and
longitude, the stored heading is the input heading clamped into the closed
interval from 0 to 360 with `max 0 (min 360 heading)` — so heading 370 is
stored as 360, not wrapped to 10 — and the stored speed is the input speed
clamped to be non-negative (speed minus 5 is stored as 0). -/
theorem updateVehiclePosition_clamps :
    ∀ (vs : List Vehicle) (id : String) (la ln h s : Rat) (now : Nat)
      (v : Vehicle),
      (updateVehiclePosition vs id (some la) (some ln) (some h) (some s)
        now).2 = some v →
      v.heading = max 0 (min 360 h) ∧ v.speed = max 0 s ∧
      0 ≤ v.heading ∧ v.heading ≤ 360 ∧ 0 ≤ v.speed := by
  intro vs id la ln h s now v hv
  simp only [updateVehiclePosition] at hv
  obtain ⟨hmem, hpred⟩ := find?_spec hv
  rw [List.mem_map] at hmem
  obtain ⟨u, hu, hfu⟩ := hmem
  by_cases hid : (u.id == id) = true
  · rw [if_pos hid] at hfu
    subst hfu
    refine ⟨rfl, rfl, le_max_left 0 _, ?_, le_max_left 0 _⟩
    exact max_le (by norm_num) (min_le_left 360 h)
  · rw [if_neg hid] at hfu
    subst hfu
    exact absurd hpred hid

/-- Witness: the clamp theorem evaluated on the concrete heading 370 and
speed minus 5 update. -/
theorem updateVehiclePosition_clamps_check :
    (updateVehiclePosition [vReco] "RECO" (some 17) (some (-4)) (some 370)
        (some (-5)) 3).2 = some vRecoClamped ∧
    vRecoClamped.heading = max 0 (min 360 370) ∧
    vRecoClamped.speed = max 0 (-5) := by
  refine ⟨by decide, ?_, ?_⟩
  · exact (updateVehiclePosition_clamps [vReco] "RECO" 17 (-4) 370 (-5) 3
      vRecoClamped (by decide)).1
  · exact (updateVehiclePosition_clamps [vReco] "RECO" 17 (-4) 370 (-5) 3
      vRecoClamped (by decide)).2.1

/-- C4 counterexample: with the current mission still in BRIEFING, the
complete endpoint succeeds (no InvalidTransition error) and the stored
mission status becomes COMPLETED, not BRIEFING. -/
theorem complete_from_briefing_succeeds :
    missionB.status = MissionStatus.BRIEFING ∧
    (completeMissionApi [missionB] none 9).2 = ApiResult.ok missionBCompleted ∧
    missionBCompleted.status = MissionStatus.COMPLETED ∧
    getCurrentMission (completeMissionApi [missionB] none 9).1 =
      some missionBCompleted := by decide

/-- C4 amended: whenever a current mission exists — whatever its status,
including BRIEFING — the complete endpoint succeeds and sets status
COMPLETED with a completion timestamp, and the start endpoint succeeds and
sets status IN_PROGRESS with a start timestamp; neither transition is
guarded by the current state, so no InvalidTransition error is ever
reported. -/
theorem mission_transitions_unchecked :
    ∀ (ms : List Mission) (m : Mission) (aiDebrief : Option String)
      (now : Nat),
      getCurrentMission ms = some m →
      (∃ m2, (completeMissionApi ms aiDebrief now).2 = ApiResult.ok m2 ∧
        m2.status = MissionStatus.COMPLETED ∧ m2.completedAt = some now) ∧
      (∃ m3, (startMissionApi ms now).2 = ApiResult.ok m3 ∧
        m3.status = MissionStatus.IN_PROGRESS ∧ m3.startedAt = some now) := by
  intro ms m aiDebrief now hm
  have hmem : m ∈ ms := getCurrentMission_mem hm
  have hsome : (ms.find? (fun x => x.id == m.id)).isSome := by
    rw [List.find?_isSome]
    exact ⟨m, hmem, by simp⟩
  obtain ⟨u, hu⟩ := Option.isSome_iff_exists.mp hsome
  constructor
  · have hmap := find?_map_update (fun x => x.id == m.id)
      (fun x => { x with
        status := MissionStatus.COMPLETED, completedAt := some now,
        debriefingContent :=
          some (aiDebrief.getD "Débriefing en cours de génération...") })
      (fun a ha => ha) ms
    refine ⟨{ u with
        status := MissionStatus.COMPLETED, completedAt := some now,
        debriefingContent :=
          some (aiDebrief.getD "Débriefing en cours de génération...") },
      ?_, rfl, rfl⟩
    simp only [completeMissionApi, hm, updateMission]
    rw [hmap, hu]
    rfl
  · have hmap := find?_map_update (fun x => x.id == m.id)
      (fun x => { x with
        status := MissionStatus.IN_PROGRESS, startedAt := some now })
      (fun a ha => ha) ms
    refine ⟨{ u with
        status := MissionStatus.IN_PROGRESS, startedAt := some now },
      ?_, rfl, rfl⟩
    simp only [startMissionApi, hm, updateMission]
    rw [hmap, hu]
    rfl

/-- Witness: the unchecked-transition theorem evaluated on the concrete
BRIEFING mission. -/
theorem mission_transitions_unchecked_check :
    (completeMissionApi [missionB] none 9).2 = ApiResult.ok missionBCompleted ∧
    (startMissionApi [missionB] 9).2 = ApiResult.ok
      { missionB with status := MissionStatus.IN_PROGRESS, startedAt := some 9 } := by
  obtain ⟨⟨m2, h1, h2, h3⟩, ⟨m3, h4, h5, h6⟩⟩ :=
    mission_transitions_unchecked [missionB] missionB none 9 (by decide)
  have hc : (completeMissionApi [missionB] none 9).2 =
      ApiResult.ok missionBCompleted := by decide
  have hs : (startMissionApi [missionB] 9).2 = ApiResult.ok
      { missionB with status := MissionStatus.IN_PROGRESS, startedAt := some 9 } := by
    decide
  exact ⟨hc, hs⟩

/-- C5 counterexample: a dismiss call on an alert that is already VALIDATED
succeeds (the updated alert is broadcast, no error), and the alert's
status, validator identity and validation timestamp are all overwritten. -/
theorem dismiss_after_validate_succeeds :
    alertValidated.status = AlertStatus.VALIDATED ∧
    (handleAlertDismiss stC5 "A1" "OTHER" 2).1.alerts = [alertRedismissed] ∧
    (handleAlertDismiss stC5 "A1" "OTHER" 2).2 =
      [Emission.broadcast "alert:updated" (Payload.alert alertRedismissed)] ∧
    alertRedismissed.status ≠ alertValidated.status ∧
    alertRedismissed.validatedBy ≠ alertValidated.validatedBy ∧
    alertRedismissed.validatedAt ≠ alertValidated.validatedAt := by decide

/-- A successful `updateAlertStatus` writes exactly the requested status,
the given validator, and a fresh validation timestamp on the matching
alert, whatever its previous contents. -/
theorem updateAlertStatus_sets (as : List Alert) (id : String)
    (status : AlertStatus) (vb : Option String) (now : Nat) (a2 : Alert)
    (h : (updateAlertStatus as id status vb now).2 = some a2) :
    a2.status = status ∧ a2.validatedBy = vb ∧
    a2.validatedAt = if status ≠ AlertStatus.PENDING then some now else none := by
  simp only [updateAlertStatus] at h
  obtain ⟨hmem, hpred⟩ := find?_spec h
  rw [List.mem_map] at hmem
  obtain ⟨u, hu, hfu⟩ := hmem
  by_cases hid : (u.id == id) = true
  · rw [if_pos hid] at hfu
    subst hfu
    exact ⟨rfl, rfl, rfl⟩
  · rw [if_neg hid] at hfu
    subst hfu
    exact absurd hpred hid

/-- C5 amended: validate and dismiss on an existing alert id always
succeed whatever the alert's current status — including when a previous
validate or dismiss already succeeded — and they overwrite the status, the
validator identity and the validation timestamp; the updated alert is then
broadcast.  No AlreadyResolved (invalid-state) error exists; status can
also move between the two resolved states, not only out of PENDING. -/
theorem alert_validate_dismiss_unchecked :
    ∀ (st : ServerState) (alertId vb : String) (now : Nat) (a2 : Alert),
      ((updateAlertStatus st.alerts alertId AlertStatus.VALIDATED (some vb)
          now).2 = some a2 →
        a2.status = AlertStatus.VALIDATED ∧ a2.validatedBy = some vb ∧
        a2.validatedAt = some now ∧
        (handleAlertValidate st alertId vb now).2 =
          [Emission.broadcast "alert:updated" (Payload.alert a2)]) ∧
      ((updateAlertStatus st.alerts alertId AlertStatus.DISMISSED (some vb)
          now).2 = some a2 →
        a2.status = AlertStatus.DISMISSED ∧ a2.validatedBy = some vb ∧
        a2.validatedAt = some now ∧
        (handleAlertDismiss st alertId vb now).2 =
          [Emission.broadcast "alert:updated" (Payload.alert a2)]) := by
  intro st alertId vb now a2
  constructor
  · intro h
    obtain ⟨h1, h2, h3⟩ := updateAlertStatus_sets st.alerts alertId
      AlertStatus.VALIDATED (some vb) now a2 h
    refine ⟨h1, h2, by simpa using h3, ?_⟩
    simp [handleAlertValidate, h]
  · intro h
    obtain ⟨h1, h2, h3⟩ := updateAlertStatus_sets st.alerts alertId
      AlertStatus.DISMISSED (some vb) now a2 h
    refine ⟨h1, h2, by simpa using h3, ?_⟩
    simp [handleAlertDismiss, h]

/-- Witness: the unchecked alert transition theorem evaluated on the
already-validated concrete alert. -/
theorem alert_validate_dismiss_unchecked_check :
    alertRedismissed.status = AlertStatus.DISMISSED ∧
    alertRedismissed.validatedBy = some "OTHER" ∧
    alertRedismissed.validatedAt = some 2 :=
  let h := (alert_validate_dismiss_unchecked stC5 "A1" "OTHER" 2
    alertRedismissed).2 (by decide)
  ⟨h.1, h.2.1, h.2.2.1⟩

/-- C6 counterexample: joining RECO twice in succession, with no
intervening leave, appends two CONNECTED audit records, not one. -/
theorem double_join_appends_two_connected_records :
    (handleJoin (handleJoin stC6 "RECO" "L1" 1).1 "RECO" "L2" 2).1.connectionLogs.map
      (fun l => l.eventType) = ["CONNECTED", "CONNECTED"] := by decide

/-- C6 amended: for every non-command role whose vehicle exists, each join
appends exactly one CONNECTED audit record at the vehicle's stored
position regardless of whether the connected flag actually flips — so two
joins with no intervening leave append two CONNECTED records. -/
theorem join_always_appends_connected :
    ∀ (st : ServerState) (vid logId : String) (now : Nat) (v : Vehicle),
      vid ≠ "PC" →
      getVehicle st.vehicles vid = some v →
      (handleJoin st vid logId now).1.connectionLogs =
        st.connectionLogs ++
          [{ id := logId, vehicleId := vid, eventType := "CONNECTED",
             latitude := v.latitude, longitude := v.longitude,
             timestamp := now }] := by
  intro st vid logId now v hne hv
  have hbeq : (vid == "PC") = false := beq_eq_false_iff_ne.mpr hne
  have hmap := find?_map_update (fun u => u.id == vid)
    (fun u => { u with isConnected := true, lastUpdate := now })
    (fun a ha => ha) st.vehicles
  have hfind : (updateVehicleConnection st.vehicles vid true now).2 =
      some { v with isConnected := true, lastUpdate := now } := by
    simp only [updateVehicleConnection]
    rw [hmap]
    rw [getVehicle] at hv
    rw [hv]
    rfl
  simp [handleJoin, hbeq, hfind, createConnectionLog]

/-- Witness: one join of the disconnected RECO appends one CONNECTED
record. -/
theorem join_always_appends_connected_check :
    (handleJoin stC6 "RECO" "L1" 1).1.connectionLogs =
      [{ id := "L1", vehicleId := "RECO", eventType := "CONNECTED",
         latitude := vReco.latitude, longitude := vReco.longitude,
         timestamp := 1 }] := by
  have h := join_always_appends_connected stC6 "RECO" "L1" 1 vReco
    (by decide) (by decide)
  simpa [stC6, stEmpty] using h

/-- C7 counterexample: two sequential route recalculations do append two
distinct RouteChange records (ids R1 then R2, times 1 then 2), but the
route-change query returns the later record first — reverse-chronological,
not chronological order. -/
theorem route_changes_query_not_chronological :
    stC7b.routeChanges.map (fun rc => rc.id) = ["R1", "R2"] ∧
    stC7b.routeChanges.map (fun rc => rc.createdAt) = [1, 2] ∧
    (routeChangesApi stC7b).map (fun rc => rc.createdAt) = [2, 1] ∧
    (routeChangesApi stC7b).map (fun rc => rc.id) = ["R2", "R1"] := by decide

/-- C7 amended: starting from an empty route-change log, two sequential
route:recalculate requests append two distinct RouteChange audit records
in arrival order, and the route-change query returns them in
reverse-chronological order — the later record first. -/
theorem route_recalculate_appends_query_newest_first :
    ∀ (st : ServerState) (svid : Option String) (d1 d2 : Option RecalcData)
      (r1 r2 : List (Rat × Rat)) (id1 id2 : String) (t1 t2 : Nat)
      (m : Mission),
      getCurrentMission st.missions = some m →
      st.routeChanges = [] →
      t1 < t2 →
      (handleRouteRecalculate (handleRouteRecalculate st svid d1 r1 id1 t1).1
          svid d2 r2 id2 t2).1.routeChanges =
        [mkRouteChange m svid d1 r1 id1 t1, mkRouteChange m svid d2 r2 id2 t2] ∧
      mkRouteChange m svid d1 r1 id1 t1 ≠ mkRouteChange m svid d2 r2 id2 t2 ∧
      routeChangesApi (handleRouteRecalculate
          (handleRouteRecalculate st svid d1 r1 id1 t1).1 svid d2 r2 id2
          t2).1 =
        [mkRouteChange m svid d2 r2 id2 t2, mkRouteChange m svid d1 r1 id1 t1] := by
  intro st svid d1 d2 r1 r2 id1 id2 t1 t2 m hm hempty hlt
  have hc1 : (mkRouteChange m svid d1 r1 id1 t1).createdAt = t1 := rfl
  have hc2 : (mkRouteChange m svid d2 r2 id2 t2).createdAt = t2 := rfl
  have h1 : handleRouteRecalculate st svid d1 r1 id1 t1 =
      ({ st with routeChanges :=
          st.routeChanges ++ [mkRouteChange m svid d1 r1 id1 t1] },
        [Emission.broadcast "route:updated" (Payload.route r1),
         Emission.broadcast "route-change:created" Payload.empty]) := by
    simp [handleRouteRecalculate, hm, createRouteChange]
  have h2 : handleRouteRecalculate
      (handleRouteRecalculate st svid d1 r1 id1 t1).1 svid d2 r2 id2 t2 =
      ({ st with routeChanges :=
          st.routeChanges ++ [mkRouteChange m svid d1 r1 id1 t1] ++
            [mkRouteChange m svid d2 r2 id2 t2] },
        [Emission.broadcast "route:updated" (Payload.route r2),
         Emission.broadcast "route-change:created" Payload.empty]) := by
    rw [h1]
    simp [handleRouteRecalculate, hm, createRouteChange]
  have hne : mkRouteChange m svid d1 r1 id1 t1 ≠
      mkRouteChange m svid d2 r2 id2 t2 := by
    intro heq
    have hts := congrArg RouteChange.createdAt heq
    rw [hc1, hc2] at hts
    exact absurd hts (Nat.ne_of_lt hlt)
  refine ⟨?_, hne, ?_⟩
  · rw [h2]
    simp [hempty]
  · rw [h2]
    simp only [routeChangesApi]
    have hmid1 : ((mkRouteChange m svid d1 r1 id1 t1).missionId == m.id)
        = true := by
      simp [mkRouteChange]
    have hmid2 : ((mkRouteChange m svid d2 r2 id2 t2).missionId == m.id)
        = true := by
      simp [mkRouteChange]
    have hnlt : ¬ ((mkRouteChange m svid d2 r2 id2 t2).createdAt <
        (mkRouteChange m svid d1 r1 id1 t1).createdAt) := by
      rw [hc1, hc2]
      omega
    simp [hm, getRouteChanges, hempty, hmid1, hmid2, sortByCreatedAtDesc,
      insertDesc, hnlt]

/-- Witness: the append-and-query theorem evaluated on the concrete
two-recalculation scenario. -/
theorem route_recalculate_appends_check :
    (routeChangesApi stC7b).map (fun rc => rc.createdAt) = [2, 1] := by
  obtain ⟨h1, hne, h2⟩ := route_recalculate_appends_query_newest_first
    stC7 (some "PC") none none [] [] "R1" "R2" 1 2 missionB (by decide) rfl
    (by decide)
  have h3 : routeChangesApi stC7b =
      [mkRouteChange missionB (some "PC") none [] "R2" 2,
       mkRouteChange missionB (some "PC") none [] "R1" 1] := h2
  rw [h3]
  rfl

/-- C8: an alert:create request carrying a data-URL image whose enrichment
call fails (the adapter result is `none`) still creates the alert with
status PENDING and no enrichment result attached, and still broadcasts
alert:created — enrichment failure never blocks alert creation. -/
theorem alertCreate_enrichment_failure_still_pending :
    ∀ (st : ServerState) (data : AlertCreateData) (newId : String)
      (now : Nat) (url : String),
      data.imageUrl = some url → strStartsWith url "data:image" = true →
      ∃ a, (handleAlertCreate st data none newId now).1.alerts =
          st.alerts ++ [a] ∧
        a.status = AlertStatus.PENDING ∧ a.aiAnalysis = none ∧
        (handleAlertCreate st data none newId now).2 =
          [Emission.broadcast "alert:created" (Payload.alert a)] := by
  intro st data newId now url himg hpre
  refine ⟨{ id := newId,
            type := data.type,
            status := AlertStatus.PENDING,
            latitude := data.latitude,
            longitude := data.longitude,
            description := data.description,
            sourceVehicleId := data.sourceVehicleId,
            imageUrl := data.imageUrl,
            aiAnalysis := none,
            createdAt := now,
            validatedAt := none,
            validatedBy := none }, ?_, rfl, rfl, ?_⟩
  · simp [handleAlertCreate, createAlert]
  · simp [handleAlertCreate]

/-- Witness: the enrichment-failure theorem evaluated on a concrete
image-carrying request against the empty store. -/
theorem alertCreate_enrichment_failure_check :
    (handleAlertCreate stEmpty alertWithImageData none "A9" 5).1.alerts.map
      (fun a => (a.status, a.aiAnalysis)) =
      [(AlertStatus.PENDING, (none : Option String))] := by
  obtain ⟨a, h1, h2, h3, h4⟩ := alertCreate_enrichment_failure_still_pending
    stEmpty alertWithImageData "A9" 5 "data:image-jpeg" rfl (by
      decide)
  have h5 : (handleAlertCreate stEmpty alertWithImageData none "A9" 5).1.alerts
      = [a] := h1
  rw [h5]
  simp [h2, h3]

/-- C9: a position update with finite coordinates whose heading input is
missing or non-finite (modelled `none`) stores heading 0, and likewise
speed 0 for a missing or non-finite speed input, overwriting the previous
values; only latitude, longitude, heading, speed and lastUpdate change on
the matching vehicle — id, type, name, connected flag and stealth flag are
untouched — and non-matching vehicles are unchanged. -/
theorem updateVehiclePosition_frame :
    ∀ (vs : List Vehicle) (id : String) (la ln : Rat)
      (hIn sIn : Option Rat) (now : Nat) (v : Vehicle), v ∈ vs →
      ∃ v2, v2 ∈ (updateVehiclePosition vs id (some la) (some ln) hIn sIn
          now).1 ∧
        v2.id = v.id ∧ v2.type = v.type ∧ v2.name = v.name ∧
        v2.isConnected = v.isConnected ∧ v2.isStealthMode = v.isStealthMode ∧
        (v.id = id →
          v2.latitude = la ∧ v2.longitude = ln ∧ v2.lastUpdate = now ∧
          (hIn = none → v2.heading = 0) ∧ (sIn = none → v2.speed = 0)) ∧
        (v.id ≠ id → v2 = v) := by
  intro vs id la ln hIn sIn now v hv
  by_cases hid : v.id = id
  · refine ⟨setPositionFields la ln
        (match hIn with | some h => max 0 (min 360 h) | none => 0)
        (match sIn with | some s => max 0 s | none => 0) now v,
      ?_, rfl, rfl, rfl, rfl, rfl, ?_, fun hc => absurd hid hc⟩
    · simp only [updateVehiclePosition]
      refine List.mem_map.mpr ⟨v, hv, ?_⟩
      rw [if_pos (by simp [hid])]
    · intro _
      refine ⟨rfl, rfl, rfl, ?_, ?_⟩
      · intro h0
        subst h0
        rfl
      · intro h0
        subst h0
        rfl
  · refine ⟨v, ?_, rfl, rfl, rfl, rfl, rfl, fun hc => absurd hc hid,
      fun _ => rfl⟩
    simp only [updateVehiclePosition]
    refine List.mem_map.mpr ⟨v, hv, ?_⟩
    rw [if_neg (by simp [hid])]

/-- Witness: the frame theorem evaluated on the RECO vehicle (previous
heading 270, speed 3); heading and speed are overwritten with 0. -/
theorem updateVehiclePosition_frame_check :
    vReco.heading = 270 ∧ vReco.speed = 3 ∧
    (updateVehiclePosition [vReco] "RECO" (some 18) (some (-3)) none none
      4).1 = [{ vReco with latitude := 18, longitude := -3, heading := 0,
                           speed := 0, lastUpdate := 4 }] := by
  obtain ⟨v2, hmem, hrest⟩ := updateVehiclePosition_frame [vReco] "RECO"
    18 (-3) none none 4 vReco (by decide)
  exact ⟨by decide, by decide, by decide⟩

/-- C10: a route:recalculate request arriving when no current mission
exists is a complete no-op: the state is unchanged (in particular no
RouteChange record is appended) and no event — neither a route update nor
an error — is emitted to any connection. -/
theorem route_recalculate_no_mission_noop :
    ∀ (st : ServerState) (svid : Option String) (data : Option RecalcData)
      (route : List (Rat × Rat)) (rcId : String) (now : Nat),
      getCurrentMission st.missions = none →
      handleRouteRecalculate st svid data route rcId now = (st, []) := by
  intro st svid data route rcId now h
  simp [handleRouteRecalculate, h]

/-- Witness: the no-op theorem evaluated on the empty store. -/
theorem route_recalculate_no_mission_noop_check :
    handleRouteRecalculate stEmpty none none [] "R0" 3 = (stEmpty, []) :=
  route_recalculate_no_mission_noop stEmpty none none [] "R0" 3 rfl
